import Mathlib

/-!
Verification of the ingestion pipeline of `virtual-printer.py`.

The script watches a spool directory for rendered PDF print jobs; each job is
relocated into a date-partitioned archive, uploaded to remote storage,
analyzed by a field-extraction service, normalized onto a fixed invoice
schema and appended to a spreadsheet sink.  Failures past relocation are
persisted into a JSON failure queue and retried once per tick of the main
loop while connectivity holds.

This file shallowly embeds the pure logic (filename cleaning, storage-key
derivation, key matching, field normalization) and the control flow of the
per-document handler `PDFHandler.on_created`, the sink `save_to_excel`, the
queue `load_failed_uploads`/`save_failed_uploads` and the drain pass
`retry_failed_uploads`.  External effects (file system, network, the
extraction service) are oracles: booleans and raw key/value maps saying how
each fallible call would have gone.  The queue file on disk is an
`Option (List Item)`: `none` when the file does not exist.
-/

namespace VirtualPrinter

/-- Lower-case a character sequence, modelling Python `str.lower()` on the
ASCII labels the script works with. -/
def lowerChars (s : String) : List Char := s.toList.map Char.toLower

/-- `charsPrefixOf n h` is true when `n` occurs at the start of `h`. -/
def charsPrefixOf : List Char → List Char → Bool
  | [], _ => true
  | _ :: _, [] => false
  | a :: as, b :: bs => a == b && charsPrefixOf as bs

/-- `charsSubstr n h` is true when `n` occurs contiguously somewhere in `h`,
modelling Python's `n in h` on strings. -/
def charsSubstr : List Char → List Char → Bool
  | n, [] => charsPrefixOf n []
  | n, h :: t => charsPrefixOf n (h :: t) || charsSubstr n t

/-- Python `p.lower() in key.lower()`: case-insensitive substring test. -/
def labelMatches (p key : String) : Bool :=
  charsSubstr (lowerChars p) (lowerChars key)

/-- A raw key/value mapping as returned by `get_kv_map`: an association list
in the dict's insertion order (Python dicts iterate in insertion order, and
`get_kv_map` keeps keys unique). -/
abbrev KVMap := List (String × String)

/-- `match_key(kvs, possibilities)` (lines 92-97): scan the mapping's keys in
order; the first key whose lower-cased text contains some synonym's
lower-cased text yields its value; otherwise the empty string. -/
def match_key (kvs : KVMap) (possibilities : List String) : String :=
  match kvs with
  | [] => ""
  | (k, v) :: rest =>
      if possibilities.any (fun p => labelMatches p k) then v
      else match_key rest possibilities

/-- `extract_invoice_fields(kvs)` (lines 100-116): the field normalizer,
producing the fixed canonical record as an ordered list of
(field name, value) pairs. -/
def extract_invoice_fields (kvs : KVMap) : List (String × String) :=
  [ ("Invoice Number", match_key kvs ["Invoice No", "Invoice Number"]),
    ("Invoice Date", match_key kvs ["Dated", "Invoice Date", "Date"]),
    ("GSTIN", match_key kvs ["GSTIN"]),
    ("Buyer Name", match_key kvs
      ["Buyer", "BILLED TO", "Bill to", "Buyer (Bill to)", "Party",
       "Customer", "Consignee"]),
    ("Buyer Contact", match_key kvs ["Mobile", "Contact"]),
    ("Total Amount", match_key kvs
      ["Total", "Total Amount", "GrandTotal", "Invoice Total",
       "Amount Payable"]),
    ("HSN Code", match_key kvs ["HSN", "HSN/SAC"]),
    ("CGST", match_key kvs ["CGST"]),
    ("SGST", match_key kvs ["SGST"]),
    ("Bank Name", match_key kvs ["Bank Name"]),
    ("Account Number", match_key kvs ["Account No", "A/c No"]),
    ("IFSC Code", match_key kvs ["IFSC", "IFSC Code"]),
    ("QUANTITY", match_key kvs ["Quantity", "Qty"]),
    ("DESCRIPTION", match_key kvs ["Description of Goods", "Description"]) ]

/-- The canonical schema: the field names of every produced record, in
order. -/
def canonicalFields : List String :=
  [ "Invoice Number", "Invoice Date", "GSTIN", "Buyer Name", "Buyer Contact",
    "Total Amount", "HSN Code", "CGST", "SGST", "Bank Name",
    "Account Number", "IFSC Code", "QUANTITY", "DESCRIPTION" ]

/-- Python `any(data.values())` on the record: some field value is a
non-empty string. -/
def anyNonempty (data : List (String × String)) : Bool :=
  data.any (fun kv => kv.2 ≠ "")

/-- `beforeSep sep l`: the prefix of `l` before the first occurrence of the
separator `sep`, the whole of `l` when `sep` does not occur.  For a
non-empty `sep` this is Python `s.split(sep)[0]`. -/
def beforeSep (sep : List Char) : List Char → List Char
  | [] => []
  | c :: rest =>
      if charsPrefixOf sep (c :: rest) then []
      else c :: beforeSep sep rest

/-- `os.path.basename`: the part of the path after the last slash. -/
def basename (p : String) : String :=
  ⟨p.toList.foldl (fun acc c => if c == '/' then [] else acc ++ [c]) []⟩

/-- `raw_name.split('__')[0]` (line 261): everything before the first
double-underscore marker of the spooled file's name. -/
def clean_name (raw : String) : String := ⟨beforeSep ['_', '_'] raw.toList⟩

/-- `created_time.split("_")[0]` (line 163): for a timestamp formatted
`YYYY-MM-DD_HH-MM-SS` this is its date part. -/
def date_folder_of (ct : String) : String := ⟨beforeSep ['_'] ct.toList⟩

/-- The destination path computed by the Relocate step (lines 259-272):
`os.path.join(output_dir, date_folder, clean_name(basename(src)))` with
`date_folder = now.strftime("%Y/%m/%d")`. -/
def dest_path (outputDir dateFolder srcPath : String) : String :=
  outputDir ++ "/" ++ dateFolder ++ "/" ++ clean_name (basename srcPath)

/-- The storage key computed by `upload_pdf_to_s3` (lines 158-167):
`created_time` is the optional argument (Python `None` is `none`, and both
`None` and `""` are falsy, so either falls back to the current clock
`now`); the key is `{date_folder}/{created_time}_{filename}` with
`date_folder = created_time.split("_")[0]`. -/
def s3_key_of (pdfPath : String) (createdTime : Option String) (now : String) :
    String :=
  let filename := basename pdfPath
  let ct := match createdTime with
    | none => now
    | some s => if s = "" then now else s
  let dateFolder := date_folder_of ct
  dateFolder ++ "/" ++ ct ++ "_" ++ filename

/-- A persisted failure-queue entry `{path, created_time}`.  `created_time`
is optional because the retry pass reads it with `item.get('created_time')`,
which yields `None` when the key is absent. -/
structure Item where
  path : String
  created_time : Option String
deriving DecidableEq, Repr

/-- `load_failed_uploads()` (lines 147-151): the queue file is modelled as
`Option (List Item)` (`none` = no file on disk).  When the file exists its
persisted collection is returned; when it does not, the empty list — the
absent branch performs no fallible operation, so this total function is the
whole behavior (it cannot raise). -/
def load_failed_uploads : Option (List Item) → List Item
  | none => []
  | some xs => xs

/-- `save_failed_uploads(data)` (lines 153-155): overwrite the file with the
given collection. -/
def save_failed_uploads (data : List Item) : Option (List Item) := some data

/-- Outcome of `save_to_excel(data, path)` (lines 118-142).  `recorded`: the
spreadsheet append succeeded; `mirrored`: the follow-up upload of the
spreadsheet to remote storage succeeded; `raised`: an exception escaped the
function. -/
structure SinkResult where
  recorded : Bool
  mirrored : Bool
  raised : Bool
deriving DecidableEq, Repr

/-- `save_to_excel` with oracles for its two fallible effects: `excelOk`
(the read/concat/write of the spreadsheet) and `mirrorOk` (the upload of the
spreadsheet to remote storage).  The whole body sits in a `try` whose
`except` only logs, and the mirror upload sits in its own inner
`try`/`except` that only logs, so no exception ever escapes. -/
def save_to_excel (excelOk mirrorOk : Bool) : SinkResult :=
  if excelOk then
    if mirrorOk then ⟨true, true, false⟩
    else ⟨true, false, false⟩
  else ⟨false, false, false⟩

/-- Oracle describing how each external call of one retry attempt (one item
of `retry_failed_uploads`, lines 182-205) would go: whether the item's file
still exists, whether the upload returns a key (`upload_pdf_to_s3` catches
its own exceptions and returns `None` on failure), whether the extraction
call `extract_text_textract` raises, the raw key/value map it returns when
it succeeds, whether `os.makedirs(excel_dir)` raises, and how the two
effects inside `save_to_excel` go. -/
structure ItemOracle where
  fileExists : Bool
  uploadOk : Bool
  analyzeRaises : Bool
  kvs : KVMap
  mkdirRaises : Bool
  excelOk : Bool
  mirrorOk : Bool

/-- Result of processing one queued item in the retry pass.  `kept`: the
item is appended to the rebuilt `still_failed` collection; `attempted`: an
upload was attempted (the file existed); `sinkCalled`: `save_to_excel` was
invoked; `missingWarned`: the file was gone and the warning was logged. -/
structure ItemResult where
  kept : Bool
  attempted : Bool
  sinkCalled : Bool
  missingWarned : Bool
deriving DecidableEq, Repr

/-- One iteration of the loop in `retry_failed_uploads` (lines 182-205):
if the file exists, re-upload with the stored timestamp; on a key, run
extraction → normalize → (if any field non-empty) makedirs + sink inside a
per-item `try` whose `except` keeps the item; a `None` key keeps the item;
a missing file logs a warning and drops it.  `save_to_excel` never raises,
so its result can only fall through to success. -/
def retry_item (o : ItemOracle) : ItemResult :=
  if o.fileExists then
    if o.uploadOk then
      if o.analyzeRaises then ⟨true, true, false, false⟩
      else
        let data := extract_invoice_fields o.kvs
        if anyNonempty data then
          if o.mkdirRaises then ⟨true, true, false, false⟩
          else
            let s := save_to_excel o.excelOk o.mirrorOk
            if s.raised then ⟨true, true, true, false⟩
            else ⟨false, true, true, false⟩
        else ⟨false, true, false, false⟩
    else ⟨true, true, false, false⟩
  else ⟨false, false, false, true⟩

/-- The rebuilt `still_failed` collection: the loop of
`retry_failed_uploads` walks the loaded queue in order and appends exactly
the items whose processing keeps them. -/
def still_failed (ω : Item → ItemOracle) : List Item → List Item
  | [] => []
  | it :: rest =>
      if (retry_item (ω it)).kept then it :: still_failed ω rest
      else still_failed ω rest

/-- Observable outcome of one tick of `retry_failed_uploads`
(lines 176-206): the queue file afterwards, whether the file was read and
whether it was rewritten, and how many items had an upload attempted. -/
structure RetryResult where
  file : Option (List Item)
  read : Bool
  wrote : Bool
  attempted : Nat
deriving DecidableEq, Repr

/-- `retry_failed_uploads()` (lines 176-206): return immediately when
offline; otherwise load the queue, process every item, and save the rebuilt
`still_failed` collection wholesale. -/
def retry_failed_uploads (connected : Bool) (ω : Item → ItemOracle)
    (file : Option (List Item)) : RetryResult :=
  if connected then
    let failed := load_failed_uploads file
    { file := save_failed_uploads (still_failed ω failed)
      read := true
      wrote := true
      attempted := failed.countP (fun it => (retry_item (ω it)).attempted) }
  else
    { file := file, read := false, wrote := false, attempted := 0 }

/-- Oracle for one run of `PDFHandler.on_created` (lines 254-317):
`relocateRaises` — one of `os.makedirs`, `shutil.move`, `os.chmod` of the
Relocate step raises (all three sit before `created_time` is assigned);
`connected` — the connectivity probe's answer; the remaining fields are as
in `ItemOracle`. -/
structure FreshOracle where
  relocateRaises : Bool
  connected : Bool
  uploadOk : Bool
  analyzeRaises : Bool
  kvs : KVMap
  mkdirRaises : Bool
  excelOk : Bool
  mirrorOk : Bool

/-- Observable outcome of one run of `PDFHandler.on_created`: the queue
file afterwards, whether `save_to_excel` was called, whether an exception
propagated out of the handler, and whether the "No valid data extracted"
warning was logged. -/
structure FreshResult where
  file : Option (List Item)
  sinkCalled : Bool
  escaped : Bool
  warnedEmpty : Bool
deriving DecidableEq, Repr

/-- The `except` block of `on_created` (lines 310-317): log, load the
queue, append `{path: dest_path, created_time}` and save. -/
def enqueue_failed (dest ct : String) (file : Option (List Item)) :
    FreshResult :=
  { file := save_failed_uploads
      (load_failed_uploads file ++ [⟨dest, some ct⟩])
    sinkCalled := false, escaped := false, warnedEmpty := false }

/-- `PDFHandler.on_created` for an event that passes the filter (a
non-directory path ending in `.pdf`), lines 254-317.  `dateFolder` and `ct`
stand for the clock reads `now.strftime("%Y/%m/%d")` and
`datetime.now().strftime("%Y-%m-%d_%H-%M-%S")`.

If the Relocate step raises, the handler's `except` block logs the error
and then evaluates `dest_path` / `created_time` — local variables that were
never assigned — so an `UnboundLocalError` propagates out of the handler
and the queue file is untouched.  Past relocation, the offline branch and a
`None` upload key raise into the `except` block, which enqueues
`{dest_path, created_time}`; an extraction failure or a makedirs failure
does the same; an all-empty record logs a warning and stops; otherwise
`save_to_excel` is called and never raises. -/
def on_created (o : FreshOracle) (outputDir dateFolder ct srcPath : String)
    (file : Option (List Item)) : FreshResult :=
  if o.relocateRaises then
    { file := file, sinkCalled := false, escaped := true
      warnedEmpty := false }
  else
    let dest := dest_path outputDir dateFolder srcPath
    if o.connected then
      if o.uploadOk then
        if o.analyzeRaises then enqueue_failed dest ct file
        else
          let data := extract_invoice_fields o.kvs
          if anyNonempty data then
            if o.mkdirRaises then enqueue_failed dest ct file
            else
              let s := save_to_excel o.excelOk o.mirrorOk
              if s.raised then enqueue_failed dest ct file
              else
                { file := file, sinkCalled := true, escaped := false
                  warnedEmpty := false }
          else
            { file := file, sinkCalled := false, escaped := false
              warnedEmpty := true }
      else enqueue_failed dest ct file
    else enqueue_failed dest ct file

/-! ## Shared lemmas -/

/-- No exception ever escapes the sink: every branch of `save_to_excel`
ends in a logging `except` clause. -/
theorem save_to_excel_raised (a b : Bool) :
    (save_to_excel a b).raised = false := by
  cases a <;> cases b <;> rfl

/-- An item survives the retry pass exactly when its file still exists and
its attempt failed: the upload returned no key, or the extraction call
raised, or the record had a usable field but the sink-directory creation
raised.  A sink failure never keeps an item. -/
theorem retry_item_kept (o : ItemOracle) :
    (retry_item o).kept =
      (o.fileExists && (!o.uploadOk || o.analyzeRaises ||
        (anyNonempty (extract_invoice_fields o.kvs) && o.mkdirRaises))) := by
  rcases o with ⟨fe, up, ar, kvs, mk, eo, mo⟩
  cases fe <;> cases up <;> cases ar <;> cases mk <;>
    cases h : anyNonempty (extract_invoice_fields kvs) <;>
      cases eo <;> cases mo <;> simp [retry_item, save_to_excel, h]

/-- The loop of the retry pass rebuilds exactly the sublist of kept
items. -/
theorem still_failed_eq_filter (ω : Item → ItemOracle) (l : List Item) :
    still_failed ω l = l.filter (fun it => (retry_item (ω it)).kept) := by
  induction l with
  | nil => rfl
  | cons it rest ih =>
      by_cases h : (retry_item (ω it)).kept = true
      · simp [still_failed, List.filter_cons, h, ih]
      · simp only [Bool.not_eq_true] at h
        simp [still_failed, List.filter_cons, h, ih]

/-- Counting lemma behind "the queue strictly shrinks by each missing-file
item": if no kept item satisfies `q`, the `q`-count plus the surviving
length fits inside the original length. -/
theorem countP_add_filter_length_le (p q : Item → Bool)
    (h : ∀ it, p it = true → q it = false) (l : List Item) :
    l.countP q + (l.filter p).length ≤ l.length := by
  induction l with
  | nil => simp
  | cons a t ih =>
      by_cases hp : p a = true
      · have hq := h a hp
        simp only [List.countP_cons, List.filter_cons, hp, hq, if_true,
          Bool.false_eq_true, if_false, List.length_cons]
        omega
      · simp only [Bool.not_eq_true] at hp
        simp only [List.countP_cons, List.filter_cons, hp,
          Bool.false_eq_true, if_false, List.length_cons]
        by_cases hq : q a = true <;> simp [hq] <;> omega

/-! ## Claims -/

/-- C3, counterexample: the Relocate step maps the detected name
`invoice__dup123.pdf` to destination filename `invoice`, not `invoice.pdf`:
`raw_name.split('__')[0]` drops everything after the first double
underscore, extension included, so the claimed destination filename
`invoice.pdf` is wrong. -/
theorem C3_cex :
    clean_name (basename "/home/u/PDF_Prints/invoice__dup123.pdf")
        = "invoice" ∧
    clean_name (basename "/home/u/PDF_Prints/invoice__dup123.pdf")
        ≠ "invoice.pdf" := by
  decide

/-- C3, amended: for a detected file named `invoice__dup123.pdf` the
Relocate step truncates the name at the first double-underscore marker, so
the destination filename under the date-partitioned directory is `invoice`
— the `.pdf` extension is part of the stripped suffix and is not
preserved. -/
theorem C3_amended_dest (outputDir dateFolder srcDir : String) :
    dest_path outputDir dateFolder (srcDir ++ "/invoice__dup123.pdf")
      = outputDir ++ "/" ++ dateFolder ++ "/" ++ "invoice" := by
  have h : clean_name (basename (srcDir ++ "/invoice__dup123.pdf"))
      = "invoice" := by
    have hb : basename (srcDir ++ "/invoice__dup123.pdf")
        = basename "/invoice__dup123.pdf" := by
      unfold basename
      have h2 : (srcDir ++ "/invoice__dup123.pdf").toList
          = srcDir.toList ++ "/invoice__dup123.pdf".toList :=
        String.data_append srcDir _
      rw [h2, List.foldl_append]
      have hfold : ∀ acc : List Char,
          List.foldl (fun acc c => if c == '/' then [] else acc ++ [c])
            acc "/invoice__dup123.pdf".toList
          = List.foldl (fun acc c => if c == '/' then [] else acc ++ [c])
            [] "/invoice__dup123.pdf".toList := by
        intro acc
        rfl
      rw [hfold]
    rw [hb]
    decide
  simp [dest_path, h]

/-- C4: the storage key of `upload_pdf_to_s3` for a non-empty recorded
timestamp does not depend on the current clock, so the key derived on retry
(which reuses the queued `created_time`) equals the key derived on the
original attempt, and both equal
`{datePrefix}/{created_time}_{basename(path)}` with the date prefix taken
from the timestamp's part before the first underscore. -/
theorem C4_idempotent_key (path ct now1 now2 : String) (h : ct ≠ "") :
    s3_key_of path (some ct) now1 = s3_key_of path (some ct) now2 ∧
    s3_key_of path (some ct) now1
      = date_folder_of ct ++ "/" ++ ct ++ "_" ++ basename path := by
  constructor <;> simp [s3_key_of, h]

/-- C4, witness at a concrete queued item. -/
theorem C4_idempotent_key_witness :
    ("2024-05-01_10-00-00" : String) ≠ "" ∧
    (s3_key_of "/a/b.pdf" (some "2024-05-01_10-00-00") "now1"
        = s3_key_of "/a/b.pdf" (some "2024-05-01_10-00-00") "now2" ∧
     s3_key_of "/a/b.pdf" (some "2024-05-01_10-00-00") "now1"
        = date_folder_of "2024-05-01_10-00-00" ++ "/"
            ++ "2024-05-01_10-00-00" ++ "_" ++ basename "/a/b.pdf") :=
  ⟨by decide,
   C4_idempotent_key "/a/b.pdf" "2024-05-01_10-00-00" "now1" "now2"
     (by decide)⟩

/-- C7: the normalizer is a total pure function returning exactly the fixed
canonical key list (missing fields as empty strings, never omitted keys),
two runs on the same mapping agree, and the empty mapping yields the
all-empty record. -/
theorem C7_normalizer_schema (kvs : KVMap) :
    (extract_invoice_fields kvs).map Prod.fst = canonicalFields ∧
    extract_invoice_fields kvs = extract_invoice_fields kvs ∧
    extract_invoice_fields [] = canonicalFields.map (fun f => (f, "")) :=
  ⟨rfl, rfl, rfl⟩

/-- C8: when the connectivity probe reports false, the retry tick returns
before touching the queue: the file is neither read nor rewritten, no item
is attempted, and the queue contents are unchanged. -/
theorem C8_offline_tick_noop (ω : Item → ItemOracle)
    (file : Option (List Item)) :
    retry_failed_uploads false ω file
      = { file := file, read := false, wrote := false, attempted := 0 } :=
  rfl

/-- C9: loading the failure queue yields the empty sequence when no
persisted file exists — that branch performs no fallible operation, so it
cannot raise — and yields the full persisted collection when the file
exists. -/
theorem C9_load_queue (xs : List Item) :
    load_failed_uploads none = [] ∧ load_failed_uploads (some xs) = xs :=
  ⟨rfl, rfl⟩

/-- C10: `match_key` returns the value of the first raw key, in the
mapping's own iteration order, whose lower-cased text contains some
synonym's lower-cased text as a substring, and the empty string when no key
matches; consequently a raw key containing `Subtotal` populates the Total
Amount field, a raw key containing `Updated` populates the Invoice Date
field, and between several matching keys the mapping order (not the
synonym-list order) decides: with keys `Grand Total` then `Total`, the
Total Amount synonyms pick the `Grand Total` entry. -/
theorem C10_match_key_first_containment :
    (∀ (kvs : KVMap) (poss : List String),
      match_key kvs poss
        = ((kvs.find? (fun kv =>
              poss.any (fun p => labelMatches p kv.1))).map Prod.snd).getD
            "") ∧
    (extract_invoice_fields [("Subtotal", "99")]).lookup "Total Amount"
      = some "99" ∧
    (extract_invoice_fields [("Updated", "2024")]).lookup "Invoice Date"
      = some "2024" ∧
    match_key [("Grand Total", "X"), ("Total", "Y")]
      ["Total", "Total Amount", "GrandTotal", "Invoice Total",
       "Amount Payable"] = "X" := by
  refine ⟨?_, by decide, by decide, by decide⟩
  intro kvs poss
  induction kvs with
  | nil => rfl
  | cons kv rest ih =>
      obtain ⟨k, v⟩ := kv
      by_cases h : poss.any (fun p => labelMatches p k) = true
      · simp [match_key, List.find?, h]
      · simp only [Bool.not_eq_true] at h
        simp [match_key, List.find?, h, ih]

/-- C5: one drain pass under connectivity rewrites the queue file wholesale
with exactly the previously queued items whose file still existed and whose
attempt failed in the pass (upload returned no key, or the
extraction-to-record block raised); successfully retried items and
missing-file items are dropped, and the missing-file count plus the
surviving length fits in the prior length, so the queue strictly shrinks by
each missing-file item. -/
theorem C5_drain_rebuild (ω : Item → ItemOracle)
    (file : Option (List Item)) :
    (retry_failed_uploads true ω file).file
      = some ((load_failed_uploads file).filter (fun it =>
          (ω it).fileExists && (!(ω it).uploadOk || (ω it).analyzeRaises ||
            (anyNonempty (extract_invoice_fields (ω it).kvs)
              && (ω it).mkdirRaises)))) ∧
    (retry_failed_uploads true ω file).wrote = true ∧
    (load_failed_uploads file).countP (fun it => !(ω it).fileExists)
        + (((retry_failed_uploads true ω file).file).getD []).length
      ≤ (load_failed_uploads file).length := by
  have hkeep : (fun it => (retry_item (ω it)).kept)
      = (fun it =>
          (ω it).fileExists && (!(ω it).uploadOk || (ω it).analyzeRaises ||
            (anyNonempty (extract_invoice_fields (ω it).kvs)
              && (ω it).mkdirRaises))) := by
    funext it
    exact retry_item_kept (ω it)
  have hfile : (retry_failed_uploads true ω file).file
      = some ((load_failed_uploads file).filter
          (fun it => (retry_item (ω it)).kept)) := by
    simp [retry_failed_uploads, save_failed_uploads, still_failed_eq_filter]
  refine ⟨by rw [hfile, hkeep], rfl, ?_⟩
  rw [hfile]
  simp only [Option.getD_some]
  refine countP_add_filter_length_le _ _ (fun it h => ?_) _
  rw [retry_item_kept] at h
  simp only [Bool.and_eq_true] at h
  simp [h.1]

/-- C2, behavior at the failing input: when the Relocate step raises (the
`relocateRaises` oracle), the `except` block of `on_created` evaluates the
never-assigned locals `dest_path` and `created_time`, so an
`UnboundLocalError` propagates out of the handler (`escaped = true`) and
the queue file is left untouched — contradicting the claim that every
exception is caught inside the handler. -/
theorem C2_relocate_failure_escapes :
    (on_created ⟨true, true, true, false, [], false, true, true⟩
        "/home/u/PDF_Prints" "2024/05/01" "2024-05-01_10-00-00"
        "/home/u/PDF_Prints/invoice__dup123.pdf" (some [])).escaped
      = true ∧
    (on_created ⟨true, true, true, false, [], false, true, true⟩
        "/home/u/PDF_Prints" "2024/05/01" "2024-05-01_10-00-00"
        "/home/u/PDF_Prints/invoice__dup123.pdf" (some [])).file
      = some [] :=
  ⟨rfl, rfl⟩

/-- C1, counterexample: a fresh document whose pipeline reaches the Record
Sink and whose spreadsheet write fails (`excelOk = false`) is NOT enqueued:
the sink was called, the handler returns normally, and the queue file is
unchanged (`some []`), while the claim demands an enqueue; likewise a retry
item in the same situation is dropped from the rebuilt queue rather than
kept. -/
theorem C1_cex :
    (on_created
        ⟨false, true, true, false, [("Invoice No", "INV-1")], false, false,
          true⟩
        "/home/u/PDF_Prints" "2024/05/01" "2024-05-01_10-00-00"
        "/home/u/PDF_Prints/invoice__dup123.pdf" (some [])).file
      = some [] ∧
    (on_created
        ⟨false, true, true, false, [("Invoice No", "INV-1")], false, false,
          true⟩
        "/home/u/PDF_Prints" "2024/05/01" "2024-05-01_10-00-00"
        "/home/u/PDF_Prints/invoice__dup123.pdf" (some [])).sinkCalled
      = true ∧
    (retry_item
        ⟨true, true, false, [("Invoice No", "INV-1")], false, false,
          true⟩).kept = false := by
  decide

/-- C1, amended: a Record Sink failure (spreadsheet write failure or mirror
upload failure) is caught and logged inside `save_to_excel` itself and is
absorbed as success by both paths: the fresh-path handler leaves the queue
file unchanged (no enqueue) and returns normally, and the retry pass drops
the item from the rebuilt queue. -/
theorem C1_amended_sink_failure_absorbed (o : FreshOracle)
    (outputDir dateFolder ct srcPath : String) (file : Option (List Item))
    (io : ItemOracle)
    (h1 : o.relocateRaises = false) (h2 : o.connected = true)
    (h3 : o.uploadOk = true) (h4 : o.analyzeRaises = false)
    (h5 : anyNonempty (extract_invoice_fields o.kvs) = true)
    (h6 : o.mkdirRaises = false)
    (h7 : o.excelOk = false ∨ o.mirrorOk = false)
    (g1 : io.fileExists = true) (g2 : io.uploadOk = true)
    (g3 : io.analyzeRaises = false)
    (g4 : anyNonempty (extract_invoice_fields io.kvs) = true)
    (g5 : io.mkdirRaises = false)
    (g6 : io.excelOk = false ∨ io.mirrorOk = false) :
    (on_created o outputDir dateFolder ct srcPath file).file = file ∧
    (on_created o outputDir dateFolder ct srcPath file).sinkCalled
      = true ∧
    (on_created o outputDir dateFolder ct srcPath file).escaped = false ∧
    (retry_item io).kept = false ∧ (retry_item io).sinkCalled = true := by
  rcases o with ⟨rr, cn, up, ar, kvs, mk, eo, mo⟩
  rcases io with ⟨fe2, up2, ar2, kvs2, mk2, eo2, mo2⟩
  simp only at h1 h2 h3 h4 h5 h6 g1 g2 g3 g4 g5
  subst h1 h2 h3 h4 h6 g1 g2 g3 g5
  simp [on_created, retry_item, save_to_excel_raised, h5, g4]

/-- C1, witness for the amended theorem at a concrete document. -/
theorem C1_amended_sink_failure_absorbed_witness :
    anyNonempty (extract_invoice_fields [("Invoice No", "INV-1")])
      = true ∧
    ((on_created
        ⟨false, true, true, false, [("Invoice No", "INV-1")], false, false,
          true⟩
        "/o" "2024/05/01" "2024-05-01_10-00-00" "/o/invoice.pdf"
        (some [])).file = some [] ∧
     (on_created
        ⟨false, true, true, false, [("Invoice No", "INV-1")], false, false,
          true⟩
        "/o" "2024/05/01" "2024-05-01_10-00-00" "/o/invoice.pdf"
        (some [])).sinkCalled = true ∧
     (on_created
        ⟨false, true, true, false, [("Invoice No", "INV-1")], false, false,
          true⟩
        "/o" "2024/05/01" "2024-05-01_10-00-00" "/o/invoice.pdf"
        (some [])).escaped = false ∧
     (retry_item
        ⟨true, true, false, [("Invoice No", "INV-1")], false, false,
          true⟩).kept = false ∧
     (retry_item
        ⟨true, true, false, [("Invoice No", "INV-1")], false, false,
          true⟩).sinkCalled = true) :=
  ⟨by decide,
   C1_amended_sink_failure_absorbed
     ⟨false, true, true, false, [("Invoice No", "INV-1")], false, false,
       true⟩
     "/o" "2024/05/01" "2024-05-01_10-00-00" "/o/invoice.pdf" (some [])
     ⟨true, true, false, [("Invoice No", "INV-1")], false, false, true⟩
     rfl rfl rfl rfl (by decide) rfl (Or.inl rfl)
     rfl rfl rfl (by decide) rfl (Or.inl rfl)⟩

/-- C6: in both paths, once the pipeline reaches the
extract-normalize-record decision (extraction succeeded and the
sink-directory creation does not raise), the Record Sink is invoked exactly
when at least one normalized field is non-empty; an all-empty record logs
the warning, writes nothing and does not enqueue: the fresh handler leaves
the queue file unchanged and the retry pass drops the item. -/
theorem C6_empty_extraction_no_record (o : FreshOracle)
    (outputDir dateFolder ct srcPath : String) (file : Option (List Item))
    (io : ItemOracle)
    (h1 : o.relocateRaises = false) (h2 : o.connected = true)
    (h3 : o.uploadOk = true) (h4 : o.analyzeRaises = false)
    (h6 : o.mkdirRaises = false)
    (g1 : io.fileExists = true) (g2 : io.uploadOk = true)
    (g3 : io.analyzeRaises = false) (g5 : io.mkdirRaises = false) :
    (on_created o outputDir dateFolder ct srcPath file).sinkCalled
      = anyNonempty (extract_invoice_fields o.kvs) ∧
    (anyNonempty (extract_invoice_fields o.kvs) = false →
      (on_created o outputDir dateFolder ct srcPath file).file = file ∧
      (on_created o outputDir dateFolder ct srcPath file).warnedEmpty
        = true) ∧
    (retry_item io).sinkCalled
      = anyNonempty (extract_invoice_fields io.kvs) ∧
    (anyNonempty (extract_invoice_fields io.kvs) = false →
      (retry_item io).kept = false) := by
  rcases o with ⟨rr, cn, up, ar, kvs, mk, eo, mo⟩
  rcases io with ⟨fe2, up2, ar2, kvs2, mk2, eo2, mo2⟩
  simp only at h1 h2 h3 h4 h6 g1 g2 g3 g5
  subst h1 h2 h3 h4 h6 g1 g2 g3 g5
  cases h : anyNonempty (extract_invoice_fields kvs) <;>
    cases h2 : anyNonempty (extract_invoice_fields kvs2) <;>
      simp [on_created, retry_item, save_to_excel_raised, h, h2]

/-- C6, witness: an all-empty extraction on both paths — the sink is not
called, the queue file is unchanged, the warning is logged and the retry
item is dropped. -/
theorem C6_empty_extraction_no_record_witness :
    (on_created ⟨false, true, true, false, [], false, true, true⟩
        "/o" "2024/05/01" "2024-05-01_10-00-00" "/o/invoice.pdf"
        (some [])).sinkCalled = anyNonempty (extract_invoice_fields []) ∧
    (on_created ⟨false, true, true, false, [], false, true, true⟩
        "/o" "2024/05/01" "2024-05-01_10-00-00" "/o/invoice.pdf"
        (some [])).file = some [] ∧
    (on_created ⟨false, true, true, false, [], false, true, true⟩
        "/o" "2024/05/01" "2024-05-01_10-00-00" "/o/invoice.pdf"
        (some [])).warnedEmpty = true ∧
    (retry_item ⟨true, true, false, [], false, true, true⟩).sinkCalled
      = anyNonempty (extract_invoice_fields []) ∧
    (retry_item ⟨true, true, false, [], false, true, true⟩).kept
      = false := by
  have h := C6_empty_extraction_no_record
    ⟨false, true, true, false, [], false, true, true⟩
    "/o" "2024/05/01" "2024-05-01_10-00-00" "/o/invoice.pdf" (some [])
    ⟨true, true, false, [], false, true, true⟩
    rfl rfl rfl rfl rfl rfl rfl rfl rfl
  exact ⟨h.1, (h.2.1 (by decide)).1, (h.2.1 (by decide)).2, h.2.2.1,
    h.2.2.2 (by decide)⟩

end VirtualPrinter
